import Mathlib

/-!
Verification of the tsid Caddy middleware (package tsid).

The repository holds three revisions of the same middleware:
* `tsid.go` (the primary file): splits the remote address, parses the IP
  (inet.af/netaddr), checks `tsaddr.IsTailscaleIP`, calls
  `tailscale.WhoIs(context.Background(), r.RemoteAddr)`, classifies a lookup
  error by substring match on its text, and on success sets the two
  placeholders `tailscale.name` and `tailscale.email` before calling `next`.
* an earlier revision (part_000): no address pre-check; calls WhoIs directly
  and additionally sets `tailscale.groups` via `buildGroups`.
* a later revision (part_001): `net/netip` parsing, a lazily created
  `local.Client` guarded by `sync.Once`, `errors.Is(err, local.ErrPeerNotFound)`
  instead of text matching, and `r.Context()` passed to WhoIs.

Everything below is a shallow embedding of that Go code: strings are Lean
`String`s (handled as their character lists; the Go originals index bytes,
which coincides on the ASCII inputs considered here), machine integers are
`Nat`, fallible operations return `Option`/`Except`, and the per-request
effects of `ServeHTTP` (placeholders written, WhoIs invocation and the
context value passed to it, invocation of the next handler, writes to the
ResponseWriter) are collected in an explicit record. Error message texts are
kept where a claim depends on them (the `no match for IP:port` substring)
and abbreviated otherwise.
-/

set_option autoImplicit false

namespace Tsid

/-! ### List/character helpers used by the parsing models -/

/-- Index of the first occurrence of `c` in `s` (Go `byteIndex`). -/
def indexOf? (s : List Char) (c : Char) : Option Nat :=
  match s with
  | [] => none
  | x :: xs => if x = c then some 0 else (indexOf? xs c).map (· + 1)

/-- Index of the last occurrence of `c` in `s` (Go `last`). -/
def lastIndexOf? (s : List Char) (c : Char) : Option Nat :=
  match s with
  | [] => none
  | x :: xs =>
    match lastIndexOf? xs c with
    | some i => some (i + 1)
    | none => if x = c then some 0 else none

/-! ### Model of Go `net.SplitHostPort`

Faithful to the control flow of the Go standard library function: the port
starts after the last colon; a leading square bracket delimits an IPv6 host;
stray brackets or extra colons are rejected. Error strings are abbreviated
versions of the Go messages. -/

def missingPort : String := "missing port in address"
def tooManyColons : String := "too many colons in address"

/-- Model of Go `net.SplitHostPort`. -/
def splitHostPort (hostport : String) : Except String (String × String) :=
  let s := hostport.data
  match lastIndexOf? s ':' with
  | none => .error missingPort
  | some i =>
    if s.head? = some '[' then
      match indexOf? s ']' with
      | none => .error "missing close bracket in address"
      | some e =>
        if e + 1 = s.length then .error missingPort
        else if e + 1 ≠ i then
          (if s.get? (e + 1) = some ':' then .error tooManyColons
           else .error missingPort)
        else if (indexOf? (s.drop 1) '[').isSome then
          .error "unexpected open bracket in address"
        else if (indexOf? (s.drop (e + 1)) ']').isSome then
          .error "unexpected close bracket in address"
        else .ok (⟨(s.drop 1).take (e - 1)⟩, ⟨s.drop (i + 1)⟩)
    else
      let host := s.take i
      if (indexOf? host ':').isSome then .error tooManyColons
      else if (indexOf? s '[').isSome then .error "unexpected open bracket in address"
      else if (indexOf? s ']').isSome then .error "unexpected close bracket in address"
      else .ok (⟨host⟩, ⟨s.drop (i + 1)⟩)

/-! ### Model of IP addresses and of `netip.ParseAddr` / `netaddr.ParseIP`

`tsid.go` parses with `netaddr.ParseIP`, the later revision with
`netip.ParseAddr`; the two have the same parsing semantics (netip descends
from netaddr): dotted-quad IPv4 with no leading zeros and fields up to 255,
RFC 4291 IPv6 with at most one `::`, optional trailing IPv4, optional
non-empty zone after `%`. -/

/-- An IP address: four octets, or sixteen bytes plus a zone. -/
inductive IP where
  | v4 (a b c d : Nat)
  | v6 (bytes : List Nat) (zone : String)
deriving DecidableEq, Repr

/-- One dotted-quad field: nonempty, all digits, no leading zero, at most 255
(the accept/reject behavior of `parseIPv4Fields` on a single field). -/
def parseV4Field (f : List Char) : Option Nat :=
  if f = [] then none
  else if ¬ f.all (fun c => '0' ≤ c ∧ c ≤ '9') then none
  else if 1 < f.length ∧ f.head? = some '0' then none
  else
    let v := f.foldl (fun a c => a * 10 + (c.toNat - '0'.toNat)) 0
    if 255 < v then none else some v

/-- Model of `netip.parseIPv4` (equally `netaddr.parseIPv4`). -/
def parseIPv4 (s : List Char) : Option IP :=
  match s.splitOn '.' with
  | [fa, fb, fc, fd] =>
    match parseV4Field fa, parseV4Field fb, parseV4Field fc, parseV4Field fd with
    | some a, some b, some c, some d => some (.v4 a b c d)
    | _, _, _, _ => none
  | _ => none

/-- Value of a hexadecimal digit character, if any. -/
def hexVal (c : Char) : Option Nat :=
  if '0' ≤ c ∧ c ≤ '9' then some (c.toNat - '0'.toNat)
  else if 'a' ≤ c ∧ c ≤ 'f' then some (c.toNat - 'a'.toNat + 10)
  else if 'A' ≤ c ∧ c ≤ 'F' then some (c.toNat - 'A'.toNat + 10)
  else none

/-- Consume a run of hex digits accumulating a 16-bit group; fails on zero
digits or on exceeding 0xffff, as the Go loop does. Returns the group value
and the unconsumed remainder. -/
def takeHexGroup : List Char → Nat → Nat → Option (Nat × List Char)
  | [], acc, n => if n = 0 then none else some (acc, [])
  | c :: cs, acc, n =>
    match hexVal c with
    | none => if n = 0 then none else some (acc, c :: cs)
    | some v =>
      let a := acc * 16 + v
      if 65535 < a then none else takeHexGroup cs a (n + 1)

/-- The group-parsing loop of `netip.parseIPv6`: accumulates bytes, records
the position of a `::` when seen, stops on an embedded trailing IPv4.
Returns the bytes gathered and the `::` position; the expansion to sixteen
bytes happens afterwards. Fuel bounds the recursion (each step consumes
input; eight groups suffice). -/
def parse6Loop : Nat → List Char → List Nat → Option Nat → Option (List Nat × Option Nat)
  | 0, _, _, _ => none
  | fuel + 1, s, acc, ell =>
    if 16 ≤ acc.length then
      if s = [] then some (acc, ell) else none
    else
      match takeHexGroup s 0 0 with
      | none => none
      | some (v, rest) =>
        if rest.head? = some '.' then
          if ell = none ∧ acc.length ≠ 12 then none
          else if 16 < acc.length + 4 then none
          else
            match parseIPv4 s with
            | some (.v4 a b c d) => some (acc ++ [a, b, c, d], ell)
            | _ => none
        else
          let acc2 := acc ++ [v / 256, v % 256]
          if rest = [] then some (acc2, ell)
          else if rest.head? ≠ some ':' then none
          else if rest.length = 1 then none
          else
            let rest2 := rest.drop 1
            if rest2.head? = some ':' then
              if ell.isSome then none
              else if rest2.drop 1 = [] then some (acc2, some acc2.length)
              else parse6Loop fuel (rest2.drop 1) acc2 (some acc2.length)
            else parse6Loop fuel rest2 acc2 ell

/-- Post-loop handling of `netip.parseIPv6`: a short address needs a `::` to
expand (inserting zero bytes at its position); a full sixteen bytes must not
also carry a `::`. -/
def expandEllipsis (bytes : List Nat) (ell : Option Nat) : Option (List Nat) :=
  if bytes.length = 16 then
    match ell with
    | some _ => none
    | none => some bytes
  else
    match ell with
    | none => none
    | some e => some (bytes.take e ++ List.replicate (16 - bytes.length) 0 ++ bytes.drop e)

/-- Model of `netip.parseIPv6` (equally `netaddr.parseIPv6`): split a zone
off at the last percent sign, handle a leading `::`, run the group loop,
expand the `::`. -/
def parseIPv6 (s : List Char) : Option IP :=
  let bz : List Char × String :=
    match lastIndexOf? s '%' with
    | none => (s, "")
    | some i => (s.take i, ⟨s.drop (i + 1)⟩)
  let body := bz.1
  let zone := bz.2
  if (lastIndexOf? s '%').isSome ∧ zone = "" then none
  else if body.head? = some ':' ∧ (body.drop 1).head? = some ':' then
    if body.drop 2 = [] then some (.v6 (List.replicate 16 0) zone)
    else
      match parse6Loop 20 (body.drop 2) [] (some 0) with
      | none => none
      | some (bytes, ell) => (expandEllipsis bytes ell).map (fun b => .v6 b zone)
  else
    match parse6Loop 20 body [] none with
    | none => none
    | some (bytes, ell) => (expandEllipsis bytes ell).map (fun b => .v6 b zone)

/-- First character of `s` that is a dot, colon or percent sign, if any:
the dispatch criterion of `netip.ParseAddr`. -/
def firstSpecial : List Char → Option Char
  | [] => none
  | c :: cs => if c = '.' ∨ c = ':' ∨ c = '%' then some c else firstSpecial cs

/-- Model of `netip.ParseAddr` / `netaddr.ParseIP`: dispatch on the first
special character (dot: IPv4, colon: IPv6, bare percent or none: error). -/
def parseAddr (s : String) : Option IP :=
  match firstSpecial s.data with
  | some '.' => parseIPv4 s.data
  | some ':' => parseIPv6 s.data
  | _ => none

/-! ### Model of `tsaddr.IsTailscaleIP`

`tailscale.com/net/tsaddr`: an IPv4 address is a Tailscale address when it
lies in the CGNAT range 100.64.0.0/10 but not in the ChromeOS VM range
100.115.92.0/23; an IPv6 address when it lies in the Tailscale ULA range
fd7a:115c:a1e0::/48 (prefix containment is false for zoned addresses). -/

/-- Model of `tsaddr.IsTailscaleIP`. -/
def isTailscaleIP : IP → Bool
  | .v4 a b c _ =>
    (a == 100 && decide (64 ≤ b) && decide (b ≤ 127))
      && !(a == 100 && b == 115 && (c == 92 || c == 93))
  | .v6 bytes zone =>
    zone == "" && bytes.take 6 == [0xfd, 0x7a, 0x11, 0x5c, 0xa1, 0xe0]

/-! ### Tailscale data model

Fields of `tailscale.WhoIs` responses used by the middleware: the user
profile (display name, login name) and the node host information with its
shared-node flag. A lookup error is modelled with its message text (the
`err.Error()` string inspected by `tsid.go`) and the structured fact of
whether `errors.Is(err, local.ErrPeerNotFound)` holds (the test performed by
the part_001 revision). -/

structure UserProfile where
  displayName : String
  loginName : String
deriving DecidableEq, Repr

structure Hostinfo where
  shareeNode : Bool
deriving DecidableEq, Repr

structure Node where
  hostinfo : Hostinfo
deriving DecidableEq, Repr

structure WhoIsResponse where
  userProfile : UserProfile
  node : Node
deriving DecidableEq, Repr

/-- A Go error as observed by this middleware: its text, and whether it is
(or wraps) the structured `local.ErrPeerNotFound` value. -/
structure GoError where
  msg : String
  isPeerNotFound : Bool
deriving DecidableEq, Repr

/-- Model of Go `strings.Contains`: `sub` occurs as a contiguous substring
of `s`. -/
def stringContains (s sub : String) : Bool := decide (sub.data <:+: s.data)

/-! ### Caddy request model -/

/-- The request-scoped variable table behind `caddyhttp.SetVar` /
placeholder resolution, as a key/value list. -/
abbrev Vars := List (String × String)

/-- Model of `caddyhttp.SetVar`: put with overwrite semantics. -/
def setVar (vars : Vars) (key value : String) : Vars :=
  if vars.any (fun p => p.1 == key) then
    vars.map (fun p => if p.1 == key then (key, value) else p)
  else vars ++ [(key, value)]

/-- Lookup in the variable table. -/
def lookupVar (vars : Vars) (key : String) : Option String :=
  (vars.find? (fun p => p.1 == key)).map (fun p => p.2)

/-- The inbound request as this middleware sees it: the raw remote address
string and the current variable table of its context. -/
structure Request where
  remoteAddr : String
  vars : Vars
deriving DecidableEq, Repr

/-- Which `context.Context` value is handed to a call: the fresh
`context.Background()` or the request's own `r.Context()`. -/
inductive CtxKind where
  | background
  | request
deriving DecidableEq, Repr

/-- The value `ServeHTTP` returns to Caddy: either a terminal
`caddyhttp.Error(status, err)` value, or whatever `next.ServeHTTP(w, r)`
returned (modelled as an optional error message). -/
inductive HandlerResult where
  | caddyError (status : Nat) (errMsg : String)
  | nextResult (err : Option String)
deriving DecidableEq, Repr

/-- `true` exactly on the pass-through (Allow) results. -/
def isAllow : HandlerResult → Bool
  | .nextResult _ => true
  | .caddyError _ _ => false

/-- Everything observable about one `ServeHTTP` run: the returned value, the
variable table afterwards, whether the address classifier ran, whether the
WhoIs lookup ran and with which context value, whether the next handler ran,
and any writes the middleware itself performed on the ResponseWriter. -/
structure Effects where
  result : HandlerResult
  vars : Vars
  classifierCalled : Bool
  whoisCalled : Bool
  whoisCtx : Option CtxKind
  nextCalled : Bool
  bodyWrites : List String
deriving DecidableEq, Repr

/-- HTTP status numbers used by the middleware. -/
def statusForbidden : Nat := 403
def statusInternalServerError : Nat := 500

/-! ### The three `ServeHTTP` revisions

Each is a function of the request, of the lookup service's answer for this
request's remote address (an oracle standing for the external WhoIs call),
and of the value the next handler would return. -/

/-- Shallow embedding of `Middleware.ServeHTTP` from `tsid.go`:
split host/port, parse the IP, reject non-Tailscale addresses, call
`tailscale.WhoIs(context.Background(), r.RemoteAddr)`, classify a lookup
error by substring match on its text, set `tailscale.name` and
`tailscale.email`, then run `next`. -/
def serveHTTP (r : Request) (whoisAnswer : Except GoError WhoIsResponse)
    (nextRet : Option String) : Effects :=
  match splitHostPort r.remoteAddr with
  | .error e =>
    { result := .caddyError statusInternalServerError e, vars := r.vars,
      classifierCalled := false, whoisCalled := false, whoisCtx := none,
      nextCalled := false, bodyWrites := [] }
  | .ok (ipStr, _) =>
    match parseAddr ipStr with
    | none =>
      { result := .caddyError statusInternalServerError "unable to parse IP", vars := r.vars,
        classifierCalled := false, whoisCalled := false, whoisCtx := none,
        nextCalled := false, bodyWrites := [] }
    | some ip =>
      if !isTailscaleIP ip then
        { result := .caddyError statusForbidden "not a Tailscale IP", vars := r.vars,
          classifierCalled := true, whoisCalled := false, whoisCtx := none,
          nextCalled := false, bodyWrites := [] }
      else
        match whoisAnswer with
        | .error err =>
          if stringContains err.msg "no match for IP:port" then
            { result := .caddyError statusForbidden "not authorized", vars := r.vars,
              classifierCalled := true, whoisCalled := true, whoisCtx := some .background,
              nextCalled := false, bodyWrites := [] }
          else
            { result := .caddyError statusInternalServerError err.msg, vars := r.vars,
              classifierCalled := true, whoisCalled := true, whoisCtx := some .background,
              nextCalled := false, bodyWrites := [] }
        | .ok whois =>
          { result := .nextResult nextRet,
            vars := setVar (setVar r.vars "tailscale.name" whois.userProfile.displayName)
              "tailscale.email" whois.userProfile.loginName,
            classifierCalled := true, whoisCalled := true, whoisCtx := some .background,
            nextCalled := true, bodyWrites := [] }

/-- Embedding of `buildGroups` from the part_000 revision: a one-element
group list chosen by the node's ShareeNode flag, joined with semicolons. -/
def buildGroups (node : Node) : String :=
  let groups : List String :=
    if !node.hostinfo.shareeNode then ["regular"] else ["guest"]
  String.intercalate ";" groups

/-- Shallow embedding of `Middleware.ServeHTTP` from the part_000 revision:
no address pre-check; `tailscale.WhoIs(context.Background(), r.RemoteAddr)`
directly, text-matched error classification, and three placeholders
(`tailscale.name`, `tailscale.email`, `tailscale.groups`). -/
def serveHTTPv0 (r : Request) (whoisAnswer : Except GoError WhoIsResponse)
    (nextRet : Option String) : Effects :=
  match whoisAnswer with
  | .error err =>
    if stringContains err.msg "no match for IP:port" then
      { result := .caddyError statusForbidden "not authorized", vars := r.vars,
        classifierCalled := false, whoisCalled := true, whoisCtx := some .background,
        nextCalled := false, bodyWrites := [] }
    else
      { result := .caddyError statusInternalServerError err.msg, vars := r.vars,
        classifierCalled := false, whoisCalled := true, whoisCtx := some .background,
        nextCalled := false, bodyWrites := [] }
  | .ok whois =>
    { result := .nextResult nextRet,
      vars := setVar (setVar (setVar r.vars "tailscale.name" whois.userProfile.displayName)
          "tailscale.email" whois.userProfile.loginName)
        "tailscale.groups" (buildGroups whois.node),
      classifierCalled := false, whoisCalled := true, whoisCtx := some .background,
      nextCalled := true, bodyWrites := [] }

/-- Shallow embedding of `Middleware.ServeHTTP` from the part_001 revision:
`net/netip` parsing, the same Tailscale-address pre-check, the lazily
constructed local client's `WhoIs(r.Context(), r.RemoteAddr)`, error
classification by `errors.Is(err, local.ErrPeerNotFound)`, and the two
placeholders `tailscale.name` and `tailscale.email`. -/
def serveHTTPv1 (r : Request) (whoisAnswer : Except GoError WhoIsResponse)
    (nextRet : Option String) : Effects :=
  match splitHostPort r.remoteAddr with
  | .error e =>
    { result := .caddyError statusInternalServerError e, vars := r.vars,
      classifierCalled := false, whoisCalled := false, whoisCtx := none,
      nextCalled := false, bodyWrites := [] }
  | .ok (ipStr, _) =>
    match parseAddr ipStr with
    | none =>
      { result := .caddyError statusInternalServerError "unable to parse IP", vars := r.vars,
        classifierCalled := false, whoisCalled := false, whoisCtx := none,
        nextCalled := false, bodyWrites := [] }
    | some ip =>
      if !isTailscaleIP ip then
        { result := .caddyError statusForbidden "not a Tailscale IP", vars := r.vars,
          classifierCalled := true, whoisCalled := false, whoisCtx := none,
          nextCalled := false, bodyWrites := [] }
      else
        match whoisAnswer with
        | .error err =>
          if err.isPeerNotFound then
            { result := .caddyError statusForbidden "not authorized", vars := r.vars,
              classifierCalled := true, whoisCalled := true, whoisCtx := some .request,
              nextCalled := false, bodyWrites := [] }
          else
            { result := .caddyError statusInternalServerError err.msg, vars := r.vars,
              classifierCalled := true, whoisCalled := true, whoisCtx := some .request,
              nextCalled := false, bodyWrites := [] }
        | .ok whois =>
          { result := .nextResult nextRet,
            vars := setVar (setVar r.vars "tailscale.name" whois.userProfile.displayName)
              "tailscale.email" whois.userProfile.loginName,
            classifierCalled := true, whoisCalled := true, whoisCtx := some .request,
            nextCalled := true, bodyWrites := [] }

/-! ### The lazily initialized local client of the part_001 revision

`Middleware` holds `init sync.Once` and `lc *local.Client`; `localClient`
runs `m.init.Do(func() { m.lc = new(local.Client) })` and returns `m.lc`.
`sync.Once.Do` guarantees the function body runs exactly once and that every
`Do` call returns only after that body has completed, so any set of
concurrent calls behaves as some serialization of atomic steps; the model
below therefore steps one atomic `localClient` call at a time, and the
theorems quantify over every number of calls, i.e. over every
serialization. Client handles are identified by allocation number. -/

structure MwState where
  onceDone : Bool
  lc : Option Nat
deriving DecidableEq, Repr

/-- A world for runs of `localClient`: the middleware state, the allocator
counter for fresh `new(local.Client)` handles, how many times the
constructor has run, and the handles returned so far. -/
structure ClientWorld where
  st : MwState
  nextFresh : Nat
  allocCount : Nat
  returns : List Nat
deriving DecidableEq, Repr

/-- One call of `localClient` from the part_001 revision: if the once-guard
has fired, return the stored handle; otherwise run the constructor, store
the fresh handle, mark the guard, and return it. -/
def stepLocalClient (w : ClientWorld) : ClientWorld :=
  if w.st.onceDone then
    { w with returns := w.returns ++ [w.st.lc.getD 0] }
  else
    { st := { onceDone := true, lc := some w.nextFresh },
      nextFresh := w.nextFresh + 1,
      allocCount := w.allocCount + 1,
      returns := w.returns ++ [w.nextFresh] }

/-- A freshly provisioned middleware instance: guard not fired, no client. -/
def initialClientWorld : ClientWorld :=
  { st := { onceDone := false, lc := none }, nextFresh := 0, allocCount := 0, returns := [] }

/-- `n` sequential `localClient` calls on a fresh middleware instance. -/
def runClientCalls (n : Nat) : ClientWorld :=
  stepLocalClient^[n] initialClientWorld

/-! ### Helper lemmas -/

/-- Writing the two identity placeholders into an empty variable table
yields exactly those two entries, in order. -/
theorem setVar_name_email (dn ln : String) :
    setVar (setVar [] "tailscale.name" dn) "tailscale.email" ln
      = [("tailscale.name", dn), ("tailscale.email", ln)] := rfl

/-- Full characterization of `n + 1` sequential `localClient` calls on a
fresh middleware instance: the guard has fired, the single constructed
handle (allocation 0) is stored, the constructor ran once, and every call
returned that handle. -/
theorem runClientCalls_succ_eq (n : Nat) :
    runClientCalls (n + 1)
      = { st := { onceDone := true, lc := some 0 }, nextFresh := 1,
          allocCount := 1, returns := List.replicate (n + 1) 0 } := by
  induction n with
  | zero => rfl
  | succ n ih =>
    have hstep : runClientCalls (n + 1 + 1) = stepLocalClient (runClientCalls (n + 1)) := by
      simp [runClientCalls, Function.iterate_succ_apply']
    rw [hstep, ih]
    simp [stepLocalClient, List.replicate_succ']

/-! ### Claims -/

/-- C1: for every request whose peer address parses successfully but lies
outside every Tailscale overlay range, `ServeHTTP` (tsid.go) returns the
forbidden `not a Tailscale IP` error — Deny(NotOverlayMember) — and the
WhoIs lookup is never invoked, whatever the lookup service would have
answered. -/
theorem outsideOverlay_denies_without_lookup
    (r : Request) (wa : Except GoError WhoIsResponse) (nextRet : Option String)
    (host port : String) (ip : IP)
    (hsplit : splitHostPort r.remoteAddr = .ok (host, port))
    (hparse : parseAddr host = some ip)
    (hip : isTailscaleIP ip = false) :
    (serveHTTP r wa nextRet).result = .caddyError statusForbidden "not a Tailscale IP"
      ∧ (serveHTTP r wa nextRet).whoisCalled = false
      ∧ (serveHTTP r wa nextRet).nextCalled = false := by
  simp [serveHTTP, hsplit, hparse, hip]

/-- Witness for C1 at the spec's scenario address 203.0.113.7:443. -/
theorem outsideOverlay_denies_without_lookup_witness :
    (serveHTTP ⟨"203.0.113.7:443", []⟩
        (.ok ⟨⟨"Alice", "alice@example.com"⟩, ⟨⟨true⟩⟩⟩) none).result
        = .caddyError statusForbidden "not a Tailscale IP"
      ∧ (serveHTTP ⟨"203.0.113.7:443", []⟩
          (.ok ⟨⟨"Alice", "alice@example.com"⟩, ⟨⟨true⟩⟩⟩) none).whoisCalled = false
      ∧ (serveHTTP ⟨"203.0.113.7:443", []⟩
          (.ok ⟨⟨"Alice", "alice@example.com"⟩, ⟨⟨true⟩⟩⟩) none).nextCalled = false :=
  outsideOverlay_denies_without_lookup ⟨"203.0.113.7:443", []⟩
    (.ok ⟨⟨"Alice", "alice@example.com"⟩, ⟨⟨true⟩⟩⟩) none
    "203.0.113.7" "443" (.v4 203 0 113 7) rfl rfl rfl

/-- C2: in the primary (tsid.go) revision the decision between
Deny(PeerUnknown) and the internal error is made by substring inspection of
the error text, not by a structured error-kind test: a lookup failure that
is structurally a service error (`errors.Is(err, local.ErrPeerNotFound)`
false) but whose text happens to contain `no match for IP:port` is answered
with the forbidden denial, whereas the structured classification of the
part_001 revision answers it with the internal error. -/
theorem peerUnknown_decided_by_error_text :
    (GoError.mk "proxy: upstream said no match for IP:port here" false).isPeerNotFound = false
      ∧ (serveHTTP ⟨"100.64.0.5:51820", []⟩
          (.error (GoError.mk "proxy: upstream said no match for IP:port here" false)) none).result
          = .caddyError statusForbidden "not authorized"
      ∧ (serveHTTPv1 ⟨"100.64.0.5:51820", []⟩
          (.error (GoError.mk "proxy: upstream said no match for IP:port here" false)) none).result
          = .caddyError statusInternalServerError
              "proxy: upstream said no match for IP:port here" := by
  refine ⟨rfl, ?_, rfl⟩
  decide

/-- C3 counterexample: on the Allow path of the primary (tsid.go) revision
— the spec's allowed-guest scenario input — the context afterwards holds
only the display name and login identifier: there is no third
membership-classification attribute, so the context does not contain
exactly three identity attributes. -/
theorem allow_context_lacks_membership_attribute :
    (serveHTTP ⟨"100.64.0.5:51820", []⟩
        (.ok ⟨⟨"Alice", "alice@example.com"⟩, ⟨⟨true⟩⟩⟩) none).result = .nextResult none
      ∧ (serveHTTP ⟨"100.64.0.5:51820", []⟩
          (.ok ⟨⟨"Alice", "alice@example.com"⟩, ⟨⟨true⟩⟩⟩) none).vars
          = [("tailscale.name", "Alice"), ("tailscale.email", "alice@example.com")]
      ∧ (serveHTTP ⟨"100.64.0.5:51820", []⟩
          (.ok ⟨⟨"Alice", "alice@example.com"⟩, ⟨⟨true⟩⟩⟩) none).vars.length ≠ 3
      ∧ lookupVar (serveHTTP ⟨"100.64.0.5:51820", []⟩
          (.ok ⟨⟨"Alice", "alice@example.com"⟩, ⟨⟨true⟩⟩⟩) none).vars "tailscale.groups"
          = none := by
  refine ⟨rfl, rfl, ?_, rfl⟩
  decide

/-- C3 as amended: for every request whose address is inside the overlay
range and for which the lookup succeeds, the primary (tsid.go) revision
allows the request and the context afterwards contains exactly the two
attributes display name (`tailscale.name`) and login identifier
(`tailscale.email`) from the record, and no others. -/
theorem allow_context_exactly_name_and_email
    (addr host port : String) (ip : IP) (w : WhoIsResponse) (nextRet : Option String)
    (hsplit : splitHostPort addr = .ok (host, port))
    (hparse : parseAddr host = some ip)
    (hip : isTailscaleIP ip = true) :
    (serveHTTP ⟨addr, []⟩ (.ok w) nextRet).result = .nextResult nextRet
      ∧ (serveHTTP ⟨addr, []⟩ (.ok w) nextRet).vars
          = [("tailscale.name", w.userProfile.displayName),
             ("tailscale.email", w.userProfile.loginName)] := by
  simp only [serveHTTP, hsplit, hparse, hip, setVar_name_email]
  exact ⟨rfl, rfl⟩

/-- Witness for the amended C3 at the spec's allowed-guest scenario. -/
theorem allow_context_exactly_name_and_email_witness :
    (serveHTTP ⟨"100.64.0.5:51820", []⟩
        (.ok ⟨⟨"Alice", "alice@example.com"⟩, ⟨⟨true⟩⟩⟩) none).result = .nextResult none
      ∧ (serveHTTP ⟨"100.64.0.5:51820", []⟩
          (.ok ⟨⟨"Alice", "alice@example.com"⟩, ⟨⟨true⟩⟩⟩) none).vars
          = [("tailscale.name", "Alice"), ("tailscale.email", "alice@example.com")] :=
  allow_context_exactly_name_and_email "100.64.0.5:51820" "100.64.0.5" "51820"
    (.v4 100 64 0 5) ⟨⟨"Alice", "alice@example.com"⟩, ⟨⟨true⟩⟩⟩ none rfl rfl rfl

/-- C4: starting from an empty variable table, the identity context exists
after `ServeHTTP` (tsid.go) exactly when the decision was Allow; the next
handler runs exactly when the decision was Allow; every non-Allow path
leaves the context empty (no partial writes); and on Allow the context
holds both identity attributes when control passes downstream. -/
theorem identity_context_iff_allow
    (addr : String) (wa : Except GoError WhoIsResponse) (nextRet : Option String) :
    ((serveHTTP ⟨addr, []⟩ wa nextRet).vars ≠ []
        ↔ isAllow (serveHTTP ⟨addr, []⟩ wa nextRet).result = true)
      ∧ (serveHTTP ⟨addr, []⟩ wa nextRet).nextCalled
          = isAllow (serveHTTP ⟨addr, []⟩ wa nextRet).result
      ∧ (isAllow (serveHTTP ⟨addr, []⟩ wa nextRet).result = false →
          (serveHTTP ⟨addr, []⟩ wa nextRet).vars = [])
      ∧ (isAllow (serveHTTP ⟨addr, []⟩ wa nextRet).result = true →
          ∃ dn ln, (serveHTTP ⟨addr, []⟩ wa nextRet).vars
            = [("tailscale.name", dn), ("tailscale.email", ln)]) := by
  cases hsplit : splitHostPort addr with
  | error e => simp [serveHTTP, hsplit, isAllow]
  | ok hp =>
    obtain ⟨host, port⟩ := hp
    cases hparse : parseAddr host with
    | none => simp [serveHTTP, hsplit, hparse, isAllow]
    | some ip =>
      cases hip : isTailscaleIP ip with
      | false => simp [serveHTTP, hsplit, hparse, hip, isAllow]
      | true =>
        cases wa with
        | error err =>
          cases hc : stringContains err.msg "no match for IP:port" with
          | false => simp [serveHTTP, hsplit, hparse, hip, hc, isAllow]
          | true => simp [serveHTTP, hsplit, hparse, hip, hc, isAllow]
        | ok w =>
          refine ⟨?_, ?_, ?_, ?_⟩ <;>
            simp [serveHTTP, hsplit, hparse, hip, isAllow, setVar_name_email]

/-- Witness for C4: a denied request (outside the overlay) ends with an
empty identity context. -/
theorem identity_context_iff_allow_witness :
    (serveHTTP ⟨"203.0.113.7:443", []⟩
        (.error (GoError.mk "boom" false)) none).vars = [] :=
  (identity_context_iff_allow "203.0.113.7:443" (.error (GoError.mk "boom" false)) none).2.2.1
    (by decide)

/-- C5: a request whose raw peer address fails to parse (either
`net.SplitHostPort` or the IP parse fails) is answered by `ServeHTTP`
(tsid.go) with the internal-infrastructure status 500 — never the forbidden
status — and neither the address classifier nor the WhoIs lookup runs. -/
theorem parse_failure_internal_error
    (r : Request) (wa : Except GoError WhoIsResponse) (nextRet : Option String) :
    (∀ e, splitHostPort r.remoteAddr = .error e →
        (serveHTTP r wa nextRet).result = .caddyError statusInternalServerError e
          ∧ (serveHTTP r wa nextRet).classifierCalled = false
          ∧ (serveHTTP r wa nextRet).whoisCalled = false
          ∧ ∀ m, (serveHTTP r wa nextRet).result ≠ .caddyError statusForbidden m)
      ∧ (∀ host port, splitHostPort r.remoteAddr = .ok (host, port) →
          parseAddr host = none →
          (serveHTTP r wa nextRet).result
              = .caddyError statusInternalServerError "unable to parse IP"
            ∧ (serveHTTP r wa nextRet).classifierCalled = false
            ∧ (serveHTTP r wa nextRet).whoisCalled = false
            ∧ ∀ m, (serveHTTP r wa nextRet).result ≠ .caddyError statusForbidden m) := by
  constructor
  · intro e hsplit
    simp [serveHTTP, hsplit, statusForbidden, statusInternalServerError]
  · intro host port hsplit hparse
    simp [serveHTTP, hsplit, hparse, statusForbidden, statusInternalServerError]

/-- Witness for C5 at the spec's malformed scenario input `not-an-address`
(SplitHostPort fails) and at `[bad]:80` (IP parse fails). -/
theorem parse_failure_internal_error_witness :
    ((serveHTTP ⟨"not-an-address", []⟩ (.ok ⟨⟨"A", "a"⟩, ⟨⟨false⟩⟩⟩) none).result
        = .caddyError statusInternalServerError missingPort
      ∧ (serveHTTP ⟨"not-an-address", []⟩ (.ok ⟨⟨"A", "a"⟩, ⟨⟨false⟩⟩⟩) none).classifierCalled = false
      ∧ (serveHTTP ⟨"not-an-address", []⟩ (.ok ⟨⟨"A", "a"⟩, ⟨⟨false⟩⟩⟩) none).whoisCalled = false
      ∧ ∀ m, (serveHTTP ⟨"not-an-address", []⟩ (.ok ⟨⟨"A", "a"⟩, ⟨⟨false⟩⟩⟩) none).result
          ≠ .caddyError statusForbidden m)
      ∧ ((serveHTTP ⟨"[bad]:80", []⟩ (.ok ⟨⟨"A", "a"⟩, ⟨⟨false⟩⟩⟩) none).result
          = .caddyError statusInternalServerError "unable to parse IP"
        ∧ (serveHTTP ⟨"[bad]:80", []⟩ (.ok ⟨⟨"A", "a"⟩, ⟨⟨false⟩⟩⟩) none).classifierCalled = false
        ∧ (serveHTTP ⟨"[bad]:80", []⟩ (.ok ⟨⟨"A", "a"⟩, ⟨⟨false⟩⟩⟩) none).whoisCalled = false
        ∧ ∀ m, (serveHTTP ⟨"[bad]:80", []⟩ (.ok ⟨⟨"A", "a"⟩, ⟨⟨false⟩⟩⟩) none).result
            ≠ .caddyError statusForbidden m) :=
  ⟨(parse_failure_internal_error ⟨"not-an-address", []⟩
      (.ok ⟨⟨"A", "a"⟩, ⟨⟨false⟩⟩⟩) none).1 missingPort rfl,
   (parse_failure_internal_error ⟨"[bad]:80", []⟩
      (.ok ⟨⟨"A", "a"⟩, ⟨⟨false⟩⟩⟩) none).2 "bad" "80" rfl rfl⟩

/-- C6: in the part_000 revision the membership classification is derived
solely from the response's ShareeNode flag — `buildGroups` maps a shared
(guest) node to the guest class and every other node to the regular class —
and the propagated `tailscale.groups` attribute is exactly that value. -/
theorem membership_class_from_shareeNode
    (node : Node) (w : WhoIsResponse) (addr : String) (nextRet : Option String) :
    buildGroups node = (if node.hostinfo.shareeNode then "guest" else "regular")
      ∧ lookupVar (serveHTTPv0 ⟨addr, []⟩ (.ok w) nextRet).vars "tailscale.groups"
          = some (buildGroups w.node) := by
  constructor
  · cases h : node.hostinfo.shareeNode <;> simp [buildGroups, h] <;> rfl
  · rfl

/-- C7: every run of `ServeHTTP` (tsid.go) ends in one of four outcomes:
the two deny reasons (outside the overlay; peer unknown) both carry the
same forbidden status and are therefore indistinguishable by status, the
infrastructure fault carries the distinct internal-error status, and the
remaining case is the Allow pass-through. -/
theorem deny_statuses_collapse_error_distinct
    (r : Request) (wa : Except GoError WhoIsResponse) (nextRet : Option String) :
    ((serveHTTP r wa nextRet).result = .caddyError statusForbidden "not a Tailscale IP"
      ∨ (serveHTTP r wa nextRet).result = .caddyError statusForbidden "not authorized"
      ∨ (∃ m, (serveHTTP r wa nextRet).result = .caddyError statusInternalServerError m)
      ∨ (serveHTTP r wa nextRet).result = .nextResult nextRet)
      ∧ statusForbidden ≠ statusInternalServerError := by
  refine ⟨?_, by decide⟩
  cases hsplit : splitHostPort r.remoteAddr with
  | error e => simp [serveHTTP, hsplit]
  | ok hp =>
    obtain ⟨host, port⟩ := hp
    cases hparse : parseAddr host with
    | none => simp [serveHTTP, hsplit, hparse]
    | some ip =>
      cases hip : isTailscaleIP ip with
      | false => simp [serveHTTP, hsplit, hparse, hip]
      | true =>
        cases wa with
        | error err =>
          cases hc : stringContains err.msg "no match for IP:port" with
          | false => simp [serveHTTP, hsplit, hparse, hip, hc]
          | true => simp [serveHTTP, hsplit, hparse, hip, hc]
        | ok w => simp [serveHTTP, hsplit, hparse, hip]

/-- C8: the WhoIs lookup of the primary (tsid.go) revision runs with
`context.Background()`, not with the request's own context — likewise the
part_000 revision — so request cancellation cannot abort the in-flight
lookup there; only the part_001 revision hands `r.Context()` to WhoIs. -/
theorem whois_called_with_background_context :
    (serveHTTP ⟨"100.64.0.5:51820", []⟩
        (.ok ⟨⟨"Alice", "alice@example.com"⟩, ⟨⟨true⟩⟩⟩) none).whoisCalled = true
      ∧ (serveHTTP ⟨"100.64.0.5:51820", []⟩
          (.ok ⟨⟨"Alice", "alice@example.com"⟩, ⟨⟨true⟩⟩⟩) none).whoisCtx
          = some CtxKind.background
      ∧ (serveHTTPv0 ⟨"100.64.0.5:51820", []⟩
          (.ok ⟨⟨"Alice", "alice@example.com"⟩, ⟨⟨true⟩⟩⟩) none).whoisCtx
          = some CtxKind.background
      ∧ (serveHTTPv1 ⟨"100.64.0.5:51820", []⟩
          (.ok ⟨⟨"Alice", "alice@example.com"⟩, ⟨⟨true⟩⟩⟩) none).whoisCtx
          = some CtxKind.request
      ∧ CtxKind.background ≠ CtxKind.request := by
  refine ⟨rfl, rfl, rfl, rfl, by decide⟩

/-- C9: the part_001 lookup client is constructed lazily at most once: no
construction happens before the first `localClient` call; over any number
of calls (hence over any serialization of concurrent calls, `sync.Once.Do`
serializing the guarded body) the constructor runs exactly once and every
call returns the one shared handle. -/
theorem localClient_initialized_once (n : Nat) :
    (runClientCalls 0).allocCount = 0
      ∧ (runClientCalls (n + 1)).allocCount = 1
      ∧ (runClientCalls (n + 1)).st.lc = some 0
      ∧ (runClientCalls (n + 1)).returns = List.replicate (n + 1) 0 := by
  refine ⟨rfl, ?_, ?_, ?_⟩ <;> rw [runClientCalls_succ_eq]

/-- C10: across all three revisions the middleware never writes to the
ResponseWriter (failures are returned to Caddy as error values), and on the
Allow path the value returned is exactly the next handler's return value,
unchanged. -/
theorem middleware_passthrough_no_writer_writes
    (r : Request) (wa : Except GoError WhoIsResponse) (nextRet : Option String) :
    ((serveHTTP r wa nextRet).bodyWrites = []
      ∧ ((serveHTTP r wa nextRet).nextCalled = true →
          (serveHTTP r wa nextRet).result = .nextResult nextRet)
      ∧ ((serveHTTP r wa nextRet).nextCalled = false →
          ∃ s m, (serveHTTP r wa nextRet).result = .caddyError s m))
      ∧ ((serveHTTPv0 r wa nextRet).bodyWrites = []
        ∧ ((serveHTTPv0 r wa nextRet).nextCalled = true →
            (serveHTTPv0 r wa nextRet).result = .nextResult nextRet))
      ∧ ((serveHTTPv1 r wa nextRet).bodyWrites = []
        ∧ ((serveHTTPv1 r wa nextRet).nextCalled = true →
            (serveHTTPv1 r wa nextRet).result = .nextResult nextRet)) := by
  refine ⟨?_, ?_, ?_⟩
  · cases hsplit : splitHostPort r.remoteAddr with
    | error e => simp [serveHTTP, hsplit]
    | ok hp =>
      obtain ⟨host, port⟩ := hp
      cases hparse : parseAddr host with
      | none => simp [serveHTTP, hsplit, hparse]
      | some ip =>
        cases hip : isTailscaleIP ip with
        | false => simp [serveHTTP, hsplit, hparse, hip]
        | true =>
          cases wa with
          | error err =>
            cases hc : stringContains err.msg "no match for IP:port" with
            | false => simp [serveHTTP, hsplit, hparse, hip, hc]
            | true => simp [serveHTTP, hsplit, hparse, hip, hc]
          | ok w => simp [serveHTTP, hsplit, hparse, hip]
  · cases wa with
    | error err =>
      cases hc : stringContains err.msg "no match for IP:port" with
      | false => simp [serveHTTPv0, hc]
      | true => simp [serveHTTPv0, hc]
    | ok w => simp [serveHTTPv0]
  · cases hsplit : splitHostPort r.remoteAddr with
    | error e => simp [serveHTTPv1, hsplit]
    | ok hp =>
      obtain ⟨host, port⟩ := hp
      cases hparse : parseAddr host with
      | none => simp [serveHTTPv1, hsplit, hparse]
      | some ip =>
        cases hip : isTailscaleIP ip with
        | false => simp [serveHTTPv1, hsplit, hparse, hip]
        | true =>
          cases wa with
          | error err =>
            cases hpn : err.isPeerNotFound with
            | false => simp [serveHTTPv1, hsplit, hparse, hip, hpn]
            | true => simp [serveHTTPv1, hsplit, hparse, hip, hpn]
          | ok w => simp [serveHTTPv1, hsplit, hparse, hip]

/-- Witness for C10: on a concrete Allow run the middleware performed no
writer writes and returned the next handler's value unchanged. -/
theorem middleware_passthrough_no_writer_writes_witness :
    (serveHTTP ⟨"100.64.0.5:51820", []⟩
        (.ok ⟨⟨"Alice", "alice@example.com"⟩, ⟨⟨true⟩⟩⟩) (some "next failed")).bodyWrites = []
      ∧ (serveHTTP ⟨"100.64.0.5:51820", []⟩
          (.ok ⟨⟨"Alice", "alice@example.com"⟩, ⟨⟨true⟩⟩⟩) (some "next failed")).result
          = .nextResult (some "next failed") :=
  ⟨(middleware_passthrough_no_writer_writes ⟨"100.64.0.5:51820", []⟩
      (.ok ⟨⟨"Alice", "alice@example.com"⟩, ⟨⟨true⟩⟩⟩) (some "next failed")).1.1,
   (middleware_passthrough_no_writer_writes ⟨"100.64.0.5:51820", []⟩
      (.ok ⟨⟨"Alice", "alice@example.com"⟩, ⟨⟨true⟩⟩⟩) (some "next failed")).1.2.1 rfl⟩

end Tsid
